import Mathlib

/-!
Shallow embedding of the uc-intg-demo integration (device.py, const.py,
media_player.py, setup.py).

Conventions of the embedding:
* `media_player.States` is the subset of states the demo device uses.
* Randomness (`random.choice`, `uuid.uuid4`) is modelled by explicit
  parameters: a natural number `k` selects the index `k % len` into the
  candidate list; the uuid-derived short id is a string parameter.
* Python exceptions are modelled with `Except DemoDevice DemoDevice`:
  `.error d` carries the device state at the moment the exception escaped
  (mutations made before the raise are kept, as in Python).
* Event emission (`self.events.emit`) is modelled by appending to an
  `emitted` log inside the device state.
-/

/-- The `ucapi.media_player.States` values used by the demo device. -/
inductive States where
  | OFF
  | ON
  | PLAYING
  | PAUSED
deriving DecidableEq, Repr

/-- `TV_SHOWS` from const.py: the fixed Show Pool. -/
def TV_SHOWS : List String :=
  [ "Breaking Bad",
    "The Wire",
    "Game of Thrones",
    "The Sopranos",
    "Mad Men",
    "The Office",
    "Friends",
    "Seinfeld",
    "Stranger Things",
    "The Mandalorian",
    "Ted Lasso",
    "Succession",
    "Better Call Saul",
    "The Crown",
    "Chernobyl",
    "Fleabag",
    "Black Mirror",
    "Fargo",
    "True Detective",
    "Westworld" ]

/-- `DemoConfig` from const.py. -/
structure DemoConfig where
  identifier : String
  name : String
  address : String
deriving DecidableEq, Repr

/-- The `MediaPlayerAttributes` snapshot held by the device
(fields used by the demo). -/
structure MediaPlayerAttributes where
  STATE : States
  MEDIA_TITLE : String
  MEDIA_IMAGE_URL : String
deriving DecidableEq, Repr

/-- `create_entity_id(EntityTypes.MEDIA_PLAYER, identifier)`:
prefixes the identifier with the entity type. -/
def create_entity_id (entity_type identifier : String) : String :=
  entity_type ++ "." ++ identifier

/-- One `self.events.emit(DeviceEvents.UPDATE, entity_id, attributes)` call. -/
structure EmittedEvent where
  event : String
  entity_id : String
  state : States
  media_title : String
deriving DecidableEq, Repr

/-- The runtime state of a `DemoDevice` (device.py), plus the log of
emitted events. -/
structure DemoDevice where
  identifier : String
  power_state : States
  media_title : String
  attributes : MediaPlayerAttributes
  emitted : List EmittedEvent
deriving DecidableEq, Repr

/-- The MEDIA_IMAGE_URL literal from `DemoDevice.__init__`. -/
def INIT_IMAGE_URL : String :=
  "https://avatars.githubusercontent.com/u/102359576?s=200&v=4"

/-- `DemoDevice.__init__`: state OFF, empty title, attribute snapshot
initialised to match. -/
def DemoDevice.init (identifier : String) : DemoDevice :=
  { identifier := identifier
    power_state := .OFF
    media_title := ""
    attributes :=
      { STATE := .OFF
        MEDIA_TITLE := ""
        MEDIA_IMAGE_URL := INIT_IMAGE_URL }
    emitted := [] }

/-- `DemoDevice._select_random_show` on an explicit pool:
`available_shows = [show for show in pool if show != current]`,
then `random.choice(available_shows)`.  `random.choice` raises
`IndexError` on an empty list, modelled by `none`; otherwise the
draw is the index `k % length`. -/
def selectRandomShow (pool : List String) (current : String) (k : Nat) :
    Option String :=
  let available_shows := pool.filter (fun s => s ≠ current)
  available_shows.get? (k % available_shows.length)

/-- `self._select_random_show()`: updates `_media_title`, raising
(`.error`, state untouched) when the available list is empty. -/
def DemoDevice.selectShow (d : DemoDevice) (k : Nat) :
    Except DemoDevice DemoDevice :=
  match selectRandomShow TV_SHOWS d.media_title k with
  | some t => .ok { d with media_title := t }
  | none => .error d

/-- The pair of assignments
`self.attributes.STATE = self._power_state;
 self.attributes.MEDIA_TITLE = self._media_title`
that every transition runs before returning. -/
def DemoDevice.syncAttributes (d : DemoDevice) : DemoDevice :=
  { d with
    attributes :=
      { d.attributes with
        STATE := d.power_state
        MEDIA_TITLE := d.media_title } }

/-- `DemoDevice._emit_state_update`: emits one UPDATE event carrying the
current state and title. -/
def DemoDevice.emitStateUpdate (d : DemoDevice) : DemoDevice :=
  { d with
    emitted := d.emitted ++
      [{ event := "UPDATE"
         entity_id := create_entity_id "media_player" d.identifier
         state := d.power_state
         media_title := d.media_title }] }

/-- `DemoDevice.establish_connection`: set state ON, select a show,
sync the attribute snapshot. -/
def DemoDevice.establish_connection (d : DemoDevice) (k : Nat) :
    Except DemoDevice DemoDevice :=
  let d := { d with power_state := .ON }
  match d.selectShow k with
  | .error e => .error e
  | .ok d' => .ok d'.syncAttributes

/-- `DemoDevice.poll_device`: only when the state is ON or PLAYING,
select a show, sync the snapshot, and emit one update event. -/
def DemoDevice.poll_device (d : DemoDevice) (k : Nat) :
    Except DemoDevice DemoDevice :=
  if d.power_state = .ON ∨ d.power_state = .PLAYING then
    match d.selectShow k with
    | .error e => .error e
    | .ok d' => .ok d'.syncAttributes.emitStateUpdate
  else
    .ok d

/-- `DemoDevice.power_on`: set state ON, select a show, sync. -/
def DemoDevice.power_on (d : DemoDevice) (k : Nat) :
    Except DemoDevice DemoDevice :=
  let d := { d with power_state := .ON }
  match d.selectShow k with
  | .error e => .error e
  | .ok d' => .ok d'.syncAttributes

/-- `DemoDevice.power_off`: set state OFF, clear the title, sync. -/
def DemoDevice.power_off (d : DemoDevice) : Except DemoDevice DemoDevice :=
  .ok (DemoDevice.syncAttributes
    { d with power_state := .OFF, media_title := "" })

/-- `DemoDevice.power_toggle`: power off when ON/PLAYING/PAUSED, else
power on. -/
def DemoDevice.power_toggle (d : DemoDevice) (k : Nat) :
    Except DemoDevice DemoDevice :=
  if d.power_state = .ON ∨ d.power_state = .PLAYING ∨
      d.power_state = .PAUSED then
    d.power_off
  else
    d.power_on k

/-- `DemoDevice.play_pause`: the if/elif chain of device.py, followed by
the final attribute sync.  Note that in the ON/PLAYING branch the
`_select_random_show()` call sits after the if/else, so it runs on both
the pause and the resume direction. -/
def DemoDevice.play_pause (d : DemoDevice) (k : Nat) :
    Except DemoDevice DemoDevice :=
  let body : Except DemoDevice DemoDevice :=
    if d.power_state = .OFF then
      match d.power_on k with
      | .error e => .error e
      | .ok d' => .ok { d' with power_state := .PLAYING }
    else if d.power_state = .PAUSED then
      DemoDevice.selectShow { d with power_state := .PLAYING } k
    else if d.power_state = .ON ∨ d.power_state = .PLAYING ∨
        d.power_state = .PAUSED then
      let d' :=
        if d.power_state = .PLAYING then
          { d with power_state := .PAUSED }
        else
          { d with power_state := .PLAYING }
      d'.selectShow k
    else
      .ok d
  match body with
  | .error e => .error e
  | .ok d' => .ok d'.syncAttributes

/-- `ucapi.StatusCodes` values used by the dispatcher. -/
inductive StatusCodes where
  | OK
  | BAD_REQUEST
  | NOT_IMPLEMENTED
deriving DecidableEq, Repr

/-- `ucapi.media_player.Commands` identifiers handled by the demo
(string values of the enum members). -/
def Commands.ON : String := "on"

/-- The OFF command identifier. -/
def Commands.OFF : String := "off"

/-- The TOGGLE command identifier. -/
def Commands.TOGGLE : String := "toggle"

/-- The PLAY_PAUSE command identifier. -/
def Commands.PLAY_PAUSE : String := "play_pause"

/-- The `match cmd_id` arm selection inside
`DemoMediaPlayer.handle_command`: `none` is the `case _` arm, `some`
is the awaited device operation (which may raise). -/
def dispatch (d : DemoDevice) (cmd_id : String) (k : Nat) :
    Option (Except DemoDevice DemoDevice) :=
  if cmd_id = Commands.ON then some (d.power_on k)
  else if cmd_id = Commands.OFF then some d.power_off
  else if cmd_id = Commands.TOGGLE then some (d.power_toggle k)
  else if cmd_id = Commands.PLAY_PAUSE then some (d.play_pause k)
  else none

/-- `DemoMediaPlayer.handle_command`: unhandled commands return
NOT_IMPLEMENTED before any mutation; a completed operation returns OK;
an exception is caught at this boundary and turned into BAD_REQUEST,
keeping whatever state the partial operation left. -/
def handle_command (d : DemoDevice) (cmd_id : String) (k : Nat) :
    StatusCodes × DemoDevice :=
  match dispatch d cmd_id k with
  | none => (.NOT_IMPLEMENTED, d)
  | some (.ok d') => (.OK, d')
  | some (.error d') => (.BAD_REQUEST, d')

/-- The `ucapi.IntegrationSetupError` kinds used by setup.py. -/
inductive IntegrationSetupError where
  | CONNECTION_REFUSED
  | TIMEOUT
deriving DecidableEq, Repr

/-- The essential content of the static `RequestUserInput` form of
setup.py: title and the (id, text default) settings rows. -/
structure RequestUserInput where
  title : String
  settings : List (String × String)
deriving DecidableEq, Repr

/-- `_DEMO_INPUT_SCHEMA` from setup.py. -/
def DEMO_INPUT_SCHEMA : RequestUserInput :=
  { title := "Demo Device Setup"
    settings := [("info", ""), ("address", "192.168.1.100")] }

/-- `DemoSetupFlow.get_manual_entry_form`. -/
def get_manual_entry_form : RequestUserInput := DEMO_INPUT_SCHEMA

/-- Result type of `DemoSetupFlow.query_device`:
`DemoConfig | SetupError | RequestUserInput`. -/
inductive QueryResult where
  | config (c : DemoConfig)
  | setupError (e : IntegrationSetupError)
  | form (f : RequestUserInput)
deriving DecidableEq, Repr

/-- `address.replace(".", "_")` (single-character pattern, hence a
character-wise map). -/
def dotToUnderscore (s : String) : String :=
  s.map (fun c => if c = '.' then '_' else c)

/-- Python `str.strip()`: drop leading and trailing whitespace. -/
def pyStrip (s : String) : String :=
  ⟨(((s.data.dropWhile Char.isWhitespace).reverse.dropWhile
      Char.isWhitespace).reverse)⟩

/-- `DemoSetupFlow.query_device`: strips the address field
(`input_values.get("address", "").strip()`); an empty address
re-displays the same form; otherwise the identifier is
`f"demo_{address.replace('.', '_')}_{short_id}"` where `short_id` is
the first 8 characters of a fresh uuid4 (modelled as the parameter
`short_id`), and the name is `f"Demo ({address})"`. -/
def query_device (input_values : List (String × String))
    (short_id : String) : QueryResult :=
  let address := pyStrip ((input_values.lookup "address").getD "")
  if address = "" then
    .form DEMO_INPUT_SCHEMA
  else
    .config
      { identifier := "demo_" ++ dotToUnderscore address ++ "_" ++ short_id
        name := "Demo (" ++ address ++ ")"
        address := address }

/-- One invocation of a state-transitioning device operation, carrying
the index that resolves its (at most one) random draw. -/
inductive Op where
  | establish (k : Nat)
  | poll (k : Nat)
  | powerOn (k : Nat)
  | powerOff
  | toggle (k : Nat)
  | playPause (k : Nat)
deriving DecidableEq, Repr

/-- Apply one operation to the device. -/
def Op.apply : Op → DemoDevice → Except DemoDevice DemoDevice
  | .establish k, d => d.establish_connection k
  | .poll k, d => d.poll_device k
  | .powerOn k, d => d.power_on k
  | .powerOff, d => d.power_off
  | .toggle k, d => d.power_toggle k
  | .playPause k, d => d.play_pause k

/-- Run a sequence of operations, stopping at the first exception. -/
def run : List Op → DemoDevice → Except DemoDevice DemoDevice
  | [], d => .ok d
  | op :: ops, d =>
    match op.apply d with
    | .ok d' => run ops d'
    | .error e => .error e

/-! ### Helper lemmas about show selection -/

lemma TV_SHOWS_mem_ne_empty : ∀ t ∈ TV_SHOWS, t ≠ "" := by decide

/-- If some pool member differs from the current title, the selection
succeeds and yields a pool member different from the current title. -/
lemma selectRandomShow_spec (pool : List String) (current : String) (k : Nat)
    (h : ∃ x ∈ pool, x ≠ current) :
    ∃ t, selectRandomShow pool current k = some t ∧ t ∈ pool ∧ t ≠ current := by
  obtain ⟨x, hx, hxc⟩ := h
  have hmem : x ∈ pool.filter (fun s => s ≠ current) := by
    simp [List.mem_filter, hx, hxc]
  have hlen : 0 < (pool.filter (fun s => s ≠ current)).length :=
    List.length_pos.mpr (List.ne_nil_of_mem hmem)
  have hlt : k % (pool.filter (fun s => s ≠ current)).length <
      (pool.filter (fun s => s ≠ current)).length := Nat.mod_lt _ hlen
  have hget : (pool.filter (fun s => s ≠ current)).get
      ⟨k % (pool.filter (fun s => s ≠ current)).length, hlt⟩ ∈
      pool.filter (fun s => s ≠ current) := List.get_mem _ _ hlt
  have hsplit := List.mem_filter.mp hget
  refine ⟨_, ?_, hsplit.1, by simpa using hsplit.2⟩
  simp only [selectRandomShow]
  exact List.get?_eq_get hlt

/-- Over the concrete `TV_SHOWS` pool the selection always succeeds. -/
lemma selectRandomShow_TV (current : String) (k : Nat) :
    ∃ t, selectRandomShow TV_SHOWS current k = some t ∧
      t ∈ TV_SHOWS ∧ t ≠ current := by
  apply selectRandomShow_spec
  by_cases h : current = "Breaking Bad"
  · exact ⟨"The Wire", by simp [TV_SHOWS], by simp [h]⟩
  · exact ⟨"Breaking Bad", by simp [TV_SHOWS], fun e => h e.symm⟩

/-- `_select_random_show` never raises on the demo device and changes only
the title, to a pool member different from the previous one. -/
lemma selectShow_ok (d : DemoDevice) (k : Nat) :
    ∃ t, t ∈ TV_SHOWS ∧ t ≠ d.media_title ∧
      d.selectShow k = .ok { d with media_title := t } := by
  obtain ⟨t, hsel, hmem, hne⟩ := selectRandomShow_TV d.media_title k
  exact ⟨t, hmem, hne, by simp [DemoDevice.selectShow, hsel]⟩

/-! ### Shape lemmas: the exact result of every device operation -/

lemma power_on_eq (d : DemoDevice) (k : Nat) :
    ∃ t, t ∈ TV_SHOWS ∧ t ≠ d.media_title ∧
      d.power_on k = .ok
        { identifier := d.identifier
          power_state := .ON
          media_title := t
          attributes := { STATE := .ON, MEDIA_TITLE := t,
                          MEDIA_IMAGE_URL := d.attributes.MEDIA_IMAGE_URL }
          emitted := d.emitted } := by
  obtain ⟨t, hmem, hne, hsel⟩ := selectShow_ok { d with power_state := States.ON } k
  refine ⟨t, hmem, hne, ?_⟩
  simp [DemoDevice.power_on, hsel, DemoDevice.syncAttributes]

lemma establish_connection_eq (d : DemoDevice) (k : Nat) :
    ∃ t, t ∈ TV_SHOWS ∧ t ≠ d.media_title ∧
      d.establish_connection k = .ok
        { identifier := d.identifier
          power_state := .ON
          media_title := t
          attributes := { STATE := .ON, MEDIA_TITLE := t,
                          MEDIA_IMAGE_URL := d.attributes.MEDIA_IMAGE_URL }
          emitted := d.emitted } := by
  obtain ⟨t, hmem, hne, hsel⟩ := selectShow_ok { d with power_state := States.ON } k
  refine ⟨t, hmem, hne, ?_⟩
  simp [DemoDevice.establish_connection, hsel, DemoDevice.syncAttributes]

lemma power_off_eq (d : DemoDevice) :
    d.power_off = .ok
      { identifier := d.identifier
        power_state := .OFF
        media_title := ""
        attributes := { STATE := .OFF, MEDIA_TITLE := "",
                        MEDIA_IMAGE_URL := d.attributes.MEDIA_IMAGE_URL }
        emitted := d.emitted } := rfl

lemma poll_device_idle (d : DemoDevice) (k : Nat)
    (h : ¬(d.power_state = .ON ∨ d.power_state = .PLAYING)) :
    d.poll_device k = .ok d := by
  simp [DemoDevice.poll_device, h]

lemma poll_device_active (d : DemoDevice) (k : Nat)
    (h : d.power_state = .ON ∨ d.power_state = .PLAYING) :
    ∃ t, t ∈ TV_SHOWS ∧ t ≠ d.media_title ∧
      d.poll_device k = .ok
        { identifier := d.identifier
          power_state := d.power_state
          media_title := t
          attributes := { STATE := d.power_state, MEDIA_TITLE := t,
                          MEDIA_IMAGE_URL := d.attributes.MEDIA_IMAGE_URL }
          emitted := d.emitted ++
            [{ event := "UPDATE"
               entity_id := create_entity_id "media_player" d.identifier
               state := d.power_state
               media_title := t }] } := by
  obtain ⟨t, hmem, hne, hsel⟩ := selectShow_ok d k
  refine ⟨t, hmem, hne, ?_⟩
  simp [DemoDevice.poll_device, h, hsel, DemoDevice.syncAttributes,
    DemoDevice.emitStateUpdate]

lemma play_pause_not_off (d : DemoDevice) (k : Nat)
    (h : d.power_state ≠ .OFF) :
    ∃ t, t ∈ TV_SHOWS ∧ t ≠ d.media_title ∧
      d.play_pause k = .ok
        { identifier := d.identifier
          power_state :=
            if d.power_state = States.PLAYING then .PAUSED else .PLAYING
          media_title := t
          attributes :=
            { STATE :=
                if d.power_state = States.PLAYING then .PAUSED else .PLAYING
              MEDIA_TITLE := t
              MEDIA_IMAGE_URL := d.attributes.MEDIA_IMAGE_URL }
          emitted := d.emitted } := by
  obtain ⟨t, hsel, hmem, hne⟩ := selectRandomShow_TV d.media_title k
  refine ⟨t, hmem, hne, ?_⟩
  cases hs : d.power_state with
  | OFF => exact absurd hs h
  | ON =>
    simp [DemoDevice.play_pause, hs, DemoDevice.selectShow, hsel,
      DemoDevice.syncAttributes]
  | PLAYING =>
    simp [DemoDevice.play_pause, hs, DemoDevice.selectShow, hsel,
      DemoDevice.syncAttributes]
  | PAUSED =>
    simp [DemoDevice.play_pause, hs, DemoDevice.selectShow, hsel,
      DemoDevice.syncAttributes]

lemma play_pause_off (d : DemoDevice) (k : Nat)
    (h : d.power_state = .OFF) :
    ∃ t, t ∈ TV_SHOWS ∧ t ≠ d.media_title ∧
      d.play_pause k = .ok
        { identifier := d.identifier
          power_state := .PLAYING
          media_title := t
          attributes := { STATE := .PLAYING, MEDIA_TITLE := t,
                          MEDIA_IMAGE_URL := d.attributes.MEDIA_IMAGE_URL }
          emitted := d.emitted } := by
  obtain ⟨t, hmem, hne, hpo⟩ := power_on_eq d k
  refine ⟨t, hmem, hne, ?_⟩
  simp [DemoDevice.play_pause, h, hpo, DemoDevice.syncAttributes]

/-! ### Invariants over reachable states -/

/-- The attribute snapshot agrees with the internal state. -/
def Synced (d : DemoDevice) : Prop :=
  d.attributes.STATE = d.power_state ∧
  d.attributes.MEDIA_TITLE = d.media_title

/-- The title/power invariant together with constancy of the image URL. -/
def GoodState (d : DemoDevice) : Prop :=
  (d.media_title = "" ↔ d.power_state = .OFF) ∧
  d.attributes.MEDIA_IMAGE_URL = INIT_IMAGE_URL

lemma init_goodState (ident : String) : GoodState (DemoDevice.init ident) := by
  constructor <;> simp [DemoDevice.init]

lemma apply_goodState (op : Op) (d d' : DemoDevice) (hg : GoodState d)
    (h : op.apply d = .ok d') : GoodState d' := by
  obtain ⟨hiff, hurl⟩ := hg
  cases op with
  | establish k =>
    obtain ⟨t, hmem, _, heq⟩ := establish_connection_eq d k
    rw [Op.apply, heq] at h
    cases h
    exact ⟨by simp [TV_SHOWS_mem_ne_empty t hmem], hurl⟩
  | poll k =>
    by_cases hp : d.power_state = States.ON ∨ d.power_state = States.PLAYING
    · obtain ⟨t, hmem, _, heq⟩ := poll_device_active d k hp
      rw [Op.apply, heq] at h
      cases h
      refine ⟨?_, hurl⟩
      rcases hp with hp | hp <;> simp [hp, TV_SHOWS_mem_ne_empty t hmem]
    · rw [Op.apply, poll_device_idle d k hp] at h
      cases h
      exact ⟨hiff, hurl⟩
  | powerOn k =>
    obtain ⟨t, hmem, _, heq⟩ := power_on_eq d k
    rw [Op.apply, heq] at h
    cases h
    exact ⟨by simp [TV_SHOWS_mem_ne_empty t hmem], hurl⟩
  | powerOff =>
    rw [Op.apply, power_off_eq] at h
    cases h
    exact ⟨by simp, hurl⟩
  | toggle k =>
    rw [Op.apply, DemoDevice.power_toggle] at h
    by_cases ht : d.power_state = States.ON ∨ d.power_state = States.PLAYING ∨
        d.power_state = States.PAUSED
    · rw [if_pos ht, power_off_eq] at h
      cases h
      exact ⟨by simp, hurl⟩
    · rw [if_neg ht] at h
      obtain ⟨t, hmem, _, heq⟩ := power_on_eq d k
      rw [heq] at h
      cases h
      exact ⟨by simp [TV_SHOWS_mem_ne_empty t hmem], hurl⟩
  | playPause k =>
    by_cases hoff : d.power_state = States.OFF
    · obtain ⟨t, hmem, _, heq⟩ := play_pause_off d k hoff
      rw [Op.apply, heq] at h
      cases h
      exact ⟨by simp [TV_SHOWS_mem_ne_empty t hmem], hurl⟩
    · obtain ⟨t, hmem, _, heq⟩ := play_pause_not_off d k hoff
      rw [Op.apply, heq] at h
      cases h
      refine ⟨?_, hurl⟩
      by_cases hpl : d.power_state = States.PLAYING <;>
        simp [hpl, TV_SHOWS_mem_ne_empty t hmem]

lemma run_goodState (ops : List Op) (d₀ d : DemoDevice) (h0 : GoodState d₀)
    (h : run ops d₀ = .ok d) : GoodState d := by
  induction ops generalizing d₀ with
  | nil => rw [run] at h; cases h; exact h0
  | cons op ops ih =>
    rw [run] at h
    cases hop : op.apply d₀ with
    | ok d₁ =>
      rw [hop] at h
      exact ih d₁ (apply_goodState op d₀ d₁ h0 hop) h
    | error e => rw [hop] at h; cases h

lemma apply_image_url (op : Op) (d d' : DemoDevice)
    (h : op.apply d = .ok d') :
    d'.attributes.MEDIA_IMAGE_URL = d.attributes.MEDIA_IMAGE_URL := by
  cases op with
  | establish k =>
    obtain ⟨t, _, _, heq⟩ := establish_connection_eq d k
    rw [Op.apply, heq] at h; cases h; rfl
  | poll k =>
    by_cases hp : d.power_state = States.ON ∨ d.power_state = States.PLAYING
    · obtain ⟨t, _, _, heq⟩ := poll_device_active d k hp
      rw [Op.apply, heq] at h; cases h; rfl
    · rw [Op.apply, poll_device_idle d k hp] at h; cases h; rfl
  | powerOn k =>
    obtain ⟨t, _, _, heq⟩ := power_on_eq d k
    rw [Op.apply, heq] at h; cases h; rfl
  | powerOff =>
    rw [Op.apply, power_off_eq] at h; cases h; rfl
  | toggle k =>
    rw [Op.apply, DemoDevice.power_toggle] at h
    by_cases ht : d.power_state = States.ON ∨ d.power_state = States.PLAYING ∨
        d.power_state = States.PAUSED
    · rw [if_pos ht, power_off_eq] at h; cases h; rfl
    · rw [if_neg ht] at h
      obtain ⟨t, _, _, heq⟩ := power_on_eq d k
      rw [heq] at h; cases h; rfl
  | playPause k =>
    by_cases hoff : d.power_state = States.OFF
    · obtain ⟨t, _, _, heq⟩ := play_pause_off d k hoff
      rw [Op.apply, heq] at h; cases h; rfl
    · obtain ⟨t, _, _, heq⟩ := play_pause_not_off d k hoff
      rw [Op.apply, heq] at h; cases h; rfl

lemma run_image_url (ops : List Op) (d₀ d : DemoDevice)
    (h : run ops d₀ = .ok d) :
    d.attributes.MEDIA_IMAGE_URL = d₀.attributes.MEDIA_IMAGE_URL := by
  induction ops generalizing d₀ with
  | nil => rw [run] at h; cases h; rfl
  | cons op ops ih =>
    rw [run] at h
    cases hop : op.apply d₀ with
    | ok d₁ =>
      rw [hop] at h
      rw [ih d₁ h, apply_image_url op d₀ d₁ hop]
    | error e => rw [hop] at h; cases h

/-- Left cancellation of string concatenation. -/
lemma string_append_left_cancel (s t u : String) (h : s ++ t = s ++ u) :
    t = u := by
  have h2 := congrArg String.data h
  simp only [String.data_append] at h2
  have h3 := List.append_cancel_left h2
  cases t; cases u; simp_all

/-- A device as left by `establish_connection` with draw 0 from the
initial state: used as a concrete reachable state in witnesses. -/
def runWitnessResult : DemoDevice :=
  { identifier := "demo"
    power_state := .ON
    media_title := "Breaking Bad"
    attributes := { STATE := .ON, MEDIA_TITLE := "Breaking Bad",
                    MEDIA_IMAGE_URL := INIT_IMAGE_URL }
    emitted := [] }

/-! ### Claims -/

/-- C1: evaluation of the code at a concrete PLAYING state.  The claim
says `play_pause` from PLAYING leaves the media title unchanged, and
the chosen branch's own comment says a new show is picked only when
resuming; the code nevertheless selects a new title on the
PLAYING → PAUSED transition, because `_select_random_show()` is called
unconditionally after the toggle.  Here, from PLAYING with title
"Fargo", the call ends PAUSED with title "Breaking Bad" ≠ "Fargo". -/
theorem C1_playing_to_paused_changes_title :
    DemoDevice.play_pause
      { identifier := "demo_device"
        power_state := .PLAYING
        media_title := "Fargo"
        attributes := { STATE := .PLAYING, MEDIA_TITLE := "Fargo",
                        MEDIA_IMAGE_URL := INIT_IMAGE_URL }
        emitted := [] } 0 =
    .ok
      { identifier := "demo_device"
        power_state := .PAUSED
        media_title := "Breaking Bad"
        attributes := { STATE := .PAUSED, MEDIA_TITLE := "Breaking Bad",
                        MEDIA_IMAGE_URL := INIT_IMAGE_URL }
        emitted := [] } ∧
    ("Breaking Bad" : String) ≠ "Fargo" :=
  ⟨rfl, by decide⟩

/-- C2 counterexample: with a pool of exactly one member the current
title is NOT kept.  If the sole member equals the current title the
draw is over an empty list and raises (`none`); if it differs, the
title changes to that member. -/
theorem C2_counterexample :
    selectRandomShow ["Breaking Bad"] "Breaking Bad" 0 = none ∧
    selectRandomShow ["The Wire"] "Breaking Bad" 0 = some "The Wire" :=
  ⟨rfl, rfl⟩

/-- C2 (amended): with more than one distinct pool member the selection
returns a pool member different from the previous title; with a pool of
exactly one member, the selection raises when the current title equals
that member, and otherwise changes the title to that member. -/
theorem C2_select_random_show (pool : List String) (current : String)
    (k : Nat) :
    (pool.Nodup → 1 < pool.length →
      ∃ t, selectRandomShow pool current k = some t ∧
        t ∈ pool ∧ t ≠ current) ∧
    (∀ x, pool = [x] →
      (current = x → selectRandomShow pool current k = none) ∧
      (current ≠ x → selectRandomShow pool current k = some x)) := by
  constructor
  · intro hnd hlen
    apply selectRandomShow_spec
    cases pool with
    | nil => simp at hlen
    | cons a tail =>
      cases tail with
      | nil => simp at hlen
      | cons b rest =>
        have hab : a ≠ b := by
          have := (List.nodup_cons.mp hnd).1
          intro e
          exact this (e ▸ List.mem_cons_self b rest)
        by_cases ha : a = current
        · exact ⟨b, by simp, fun e => hab (ha.trans e.symm)⟩
        · exact ⟨a, by simp, ha⟩
  · rintro x rfl
    constructor
    · rintro rfl
      simp [selectRandomShow]
    · intro hne
      have hxc : x ≠ current := fun e => hne e.symm
      simp [selectRandomShow, hxc, Nat.mod_one]

/-- Witness for C2: both parts applied at concrete inputs. -/
theorem C2_select_random_show_witness :
    (∃ t, selectRandomShow ["Breaking Bad", "The Wire"] "Breaking Bad" 0 =
        some t ∧ t ∈ ["Breaking Bad", "The Wire"] ∧ t ≠ "Breaking Bad") ∧
    selectRandomShow ["Breaking Bad"] "The Office" 0 = some "Breaking Bad" :=
  ⟨(C2_select_random_show ["Breaking Bad", "The Wire"] "Breaking Bad" 0).1
      (by decide) (by decide),
   ((C2_select_random_show ["Breaking Bad"] "The Office" 0).2
      "Breaking Bad" rfl).2 (by decide)⟩

/-- C5: any command identifier other than ON/OFF/TOGGLE/PLAY_PAUSE is
answered with NOT_IMPLEMENTED and leaves the device state (power state,
title, attributes, emitted events) unchanged. -/
theorem C5_unknown_command (d : DemoDevice) (cmd_id : String) (k : Nat)
    (h1 : cmd_id ≠ Commands.ON) (h2 : cmd_id ≠ Commands.OFF)
    (h3 : cmd_id ≠ Commands.TOGGLE) (h4 : cmd_id ≠ Commands.PLAY_PAUSE) :
    handle_command d cmd_id k = (.NOT_IMPLEMENTED, d) := by
  simp [handle_command, dispatch, h1, h2, h3, h4]

/-- Witness for C5 at the unknown command "stop". -/
theorem C5_unknown_command_witness :
    handle_command (DemoDevice.init "demo") "stop" 0 =
      (.NOT_IMPLEMENTED, DemoDevice.init "demo") :=
  C5_unknown_command (DemoDevice.init "demo") "stop" 0
    (by decide) (by decide) (by decide) (by decide)

/-- C6: every recognized command is dispatched to its device operation;
a completed operation yields OK with the new state, a raised exception
is caught at the dispatcher boundary and yields BAD_REQUEST with the
state the partial operation left — in both cases `handle_command`
returns a status instead of propagating. -/
theorem C6_recognized_command (d : DemoDevice) (cmd_id : String) (k : Nat)
    (h : cmd_id = Commands.ON ∨ cmd_id = Commands.OFF ∨
         cmd_id = Commands.TOGGLE ∨ cmd_id = Commands.PLAY_PAUSE) :
    ∃ r, dispatch d cmd_id k = some r ∧
      (∀ d', r = .ok d' → handle_command d cmd_id k = (.OK, d')) ∧
      (∀ d', r = .error d' →
        handle_command d cmd_id k = (.BAD_REQUEST, d')) := by
  have hd : ∃ r, dispatch d cmd_id k = some r := by
    rcases h with h | h | h | h <;> subst h <;>
      simp [dispatch, Commands.ON, Commands.OFF, Commands.TOGGLE,
        Commands.PLAY_PAUSE]
  obtain ⟨r, hr⟩ := hd
  refine ⟨r, hr, ?_, ?_⟩
  · rintro d' rfl
    simp [handle_command, hr]
  · rintro d' rfl
    simp [handle_command, hr]

/-- Witness for C6 at the recognized command "on". -/
theorem C6_recognized_command_witness :
    ∃ r, dispatch (DemoDevice.init "demo") "on" 2 = some r ∧
      (∀ d', r = .ok d' →
        handle_command (DemoDevice.init "demo") "on" 2 = (.OK, d')) ∧
      (∀ d', r = .error d' →
        handle_command (DemoDevice.init "demo") "on" 2 =
          (.BAD_REQUEST, d')) :=
  C6_recognized_command (DemoDevice.init "demo") "on" 2 (Or.inl rfl)

/-- C8: `play_pause` from the OFF state always completes, ending PLAYING
with a non-empty title drawn from the Show Pool. -/
theorem C8_play_pause_from_off (d : DemoDevice) (k : Nat)
    (h : d.power_state = .OFF) :
    ∃ d', d.play_pause k = .ok d' ∧ d'.power_state = .PLAYING ∧
      d'.media_title ∈ TV_SHOWS ∧ d'.media_title ≠ "" := by
  obtain ⟨t, hmem, hne, heq⟩ := play_pause_off d k h
  exact ⟨_, heq, rfl, hmem, TV_SHOWS_mem_ne_empty t hmem⟩

/-- Witness for C8 at the freshly initialised (OFF) device. -/
theorem C8_play_pause_from_off_witness :
    ∃ d', (DemoDevice.init "demo").play_pause 0 = .ok d' ∧
      d'.power_state = .PLAYING ∧ d'.media_title ∈ TV_SHOWS ∧
      d'.media_title ≠ "" :=
  C8_play_pause_from_off (DemoDevice.init "demo") 0 rfl

/-- C3: starting from the initial state (OFF, empty title), after every
sequence of operations that returns, the media title is empty if and
only if the power state is OFF. -/
theorem C3_title_empty_iff_off (ident : String) (ops : List Op)
    (d : DemoDevice) (h : run ops (DemoDevice.init ident) = .ok d) :
    d.media_title = "" ↔ d.power_state = .OFF :=
  (run_goodState ops _ d (init_goodState ident) h).1

/-- Witness for C3 at the one-step sequence `[establish 0]`. -/
theorem C3_title_empty_iff_off_witness :
    run [Op.establish 0] (DemoDevice.init "demo") = .ok runWitnessResult ∧
    (runWitnessResult.media_title = "" ↔
      runWitnessResult.power_state = .OFF) :=
  ⟨rfl, C3_title_empty_iff_off "demo" [Op.establish 0] runWitnessResult rfl⟩

/-- C4: `poll_device` from OFF or PAUSED is a complete no-op (result
state, attributes and event log are exactly the input state); from ON or
PLAYING it keeps the power state, selects a new title from the pool, and
appends exactly one UPDATE event carrying the new state and title. -/
theorem C4_poll_tick (d : DemoDevice) (k : Nat) :
    ((d.power_state = .OFF ∨ d.power_state = .PAUSED) →
      d.poll_device k = .ok d) ∧
    ((d.power_state = .ON ∨ d.power_state = .PLAYING) →
      ∃ d', d.poll_device k = .ok d' ∧
        d'.power_state = d.power_state ∧
        d'.media_title ≠ d.media_title ∧
        d'.media_title ∈ TV_SHOWS ∧
        ∃ e, d'.emitted = d.emitted ++ [e] ∧ e.event = "UPDATE" ∧
          e.state = d'.power_state ∧ e.media_title = d'.media_title) := by
  constructor
  · intro h
    apply poll_device_idle
    rcases h with h | h <;> simp [h]
  · intro h
    obtain ⟨t, hmem, hne, heq⟩ := poll_device_active d k h
    exact ⟨_, heq, rfl, hne, hmem, _, rfl, rfl, rfl, rfl⟩

/-- Witness for C4: the no-op part at the initial (OFF) device, the
active part at a reachable ON state. -/
theorem C4_poll_tick_witness :
    (DemoDevice.init "demo").poll_device 0 = .ok (DemoDevice.init "demo") ∧
    (∃ d', runWitnessResult.poll_device 1 = .ok d' ∧
      d'.power_state = runWitnessResult.power_state ∧
      d'.media_title ≠ runWitnessResult.media_title ∧
      d'.media_title ∈ TV_SHOWS ∧
      ∃ e, d'.emitted = runWitnessResult.emitted ++ [e] ∧
        e.event = "UPDATE" ∧ e.state = d'.power_state ∧
        e.media_title = d'.media_title) :=
  ⟨(C4_poll_tick (DemoDevice.init "demo") 0).1 (Or.inl rfl),
   (C4_poll_tick runWitnessResult 1).2 (Or.inl rfl)⟩

/-- C7: with an empty trimmed address `query_device` returns the
identical static form; with a non-empty trimmed address it returns a
configuration whose identifier contains the address with dots replaced
by underscores, and two calls with distinct fresh short ids produce
distinct identifiers. -/
theorem C7_query_device (input_values : List (String × String))
    (sid1 sid2 : String) :
    (pyStrip ((input_values.lookup "address").getD "") = "" →
      query_device input_values sid1 = .form DEMO_INPUT_SCHEMA) ∧
    (pyStrip ((input_values.lookup "address").getD "") ≠ "" →
      ∃ c1 c2, query_device input_values sid1 = .config c1 ∧
        query_device input_values sid2 = .config c2 ∧
        (∃ pre post, c1.identifier = pre ++
          dotToUnderscore (pyStrip ((input_values.lookup "address").getD
            "")) ++ post) ∧
        (sid1 ≠ sid2 → c1.identifier ≠ c2.identifier)) := by
  constructor
  · intro h
    simp [query_device, h]
  · intro h
    refine
      ⟨{ identifier := "demo_" ++
            dotToUnderscore (pyStrip ((input_values.lookup
              "address").getD "")) ++ "_" ++ sid1
         name := "Demo (" ++
            pyStrip ((input_values.lookup "address").getD "") ++ ")"
         address := pyStrip ((input_values.lookup "address").getD "") },
       { identifier := "demo_" ++
            dotToUnderscore (pyStrip ((input_values.lookup
              "address").getD "")) ++ "_" ++ sid2
         name := "Demo (" ++
            pyStrip ((input_values.lookup "address").getD "") ++ ")"
         address := pyStrip ((input_values.lookup "address").getD "") },
       ?_, ?_, ?_, ?_⟩
    · simp [query_device, h]
    · simp [query_device, h]
    · exact ⟨"demo_", "_" ++ sid1, String.append_assoc _ _ _⟩
    · intro hne heq
      apply hne
      exact string_append_left_cancel _ _ _ heq

/-- Witness for C7: the empty-address branch and the non-empty branch
with two distinct short ids, at concrete inputs. -/
theorem C7_query_device_witness :
    (query_device [("address", "   ")] "aaaa" = .form DEMO_INPUT_SCHEMA) ∧
    (∃ c1 c2,
      query_device [("address", " 192.168.1.7 ")] "aaaa" = .config c1 ∧
      query_device [("address", " 192.168.1.7 ")] "bbbb" = .config c2 ∧
      (∃ pre post, c1.identifier = pre ++
        dotToUnderscore
          (pyStrip (([("address", " 192.168.1.7 ")].lookup
            "address").getD "")) ++ post) ∧
      ("aaaa" ≠ "bbbb" → c1.identifier ≠ c2.identifier)) :=
  ⟨(C7_query_device [("address", "   ")] "aaaa" "bbbb").1 (by decide),
   (C7_query_device [("address", " 192.168.1.7 ")] "aaaa" "bbbb").2
     (by decide)⟩

/-- C9: every state-transitioning operation that returns leaves the
attribute snapshot (STATE, MEDIA_TITLE) equal to the internal state
(power state, media title), provided the snapshot agreed before the
call (as it does from construction on). -/
theorem C9_attributes_synced (op : Op) (d d' : DemoDevice)
    (hs : Synced d) (h : op.apply d = .ok d') : Synced d' := by
  cases op with
  | establish k =>
    obtain ⟨t, _, _, heq⟩ := establish_connection_eq d k
    rw [Op.apply, heq] at h
    cases h
    exact ⟨rfl, rfl⟩
  | poll k =>
    by_cases hp : d.power_state = States.ON ∨ d.power_state = States.PLAYING
    · obtain ⟨t, _, _, heq⟩ := poll_device_active d k hp
      rw [Op.apply, heq] at h
      cases h
      exact ⟨rfl, rfl⟩
    · rw [Op.apply, poll_device_idle d k hp] at h
      cases h
      exact hs
  | powerOn k =>
    obtain ⟨t, _, _, heq⟩ := power_on_eq d k
    rw [Op.apply, heq] at h
    cases h
    exact ⟨rfl, rfl⟩
  | powerOff =>
    rw [Op.apply, power_off_eq] at h
    cases h
    exact ⟨rfl, rfl⟩
  | toggle k =>
    rw [Op.apply, DemoDevice.power_toggle] at h
    by_cases ht : d.power_state = States.ON ∨ d.power_state = States.PLAYING ∨
        d.power_state = States.PAUSED
    · rw [if_pos ht, power_off_eq] at h
      cases h
      exact ⟨rfl, rfl⟩
    · rw [if_neg ht] at h
      obtain ⟨t, _, _, heq⟩ := power_on_eq d k
      rw [heq] at h
      cases h
      exact ⟨rfl, rfl⟩
  | playPause k =>
    by_cases hoff : d.power_state = States.OFF
    · obtain ⟨t, _, _, heq⟩ := play_pause_off d k hoff
      rw [Op.apply, heq] at h
      cases h
      exact ⟨rfl, rfl⟩
    · obtain ⟨t, _, _, heq⟩ := play_pause_not_off d k hoff
      rw [Op.apply, heq] at h
      cases h
      exact ⟨rfl, rfl⟩

/-- Witness for C9: `establish_connection` from the initial device. -/
theorem C9_attributes_synced_witness :
    Synced runWitnessResult :=
  C9_attributes_synced (Op.establish 0) (DemoDevice.init "demo")
    runWitnessResult ⟨rfl, rfl⟩ rfl

/-- C10: the MEDIA_IMAGE_URL attribute keeps its construction-time value
across every sequence of device operations. -/
theorem C10_image_url_constant (ident : String) (ops : List Op)
    (d : DemoDevice) (h : run ops (DemoDevice.init ident) = .ok d) :
    d.attributes.MEDIA_IMAGE_URL =
      (DemoDevice.init ident).attributes.MEDIA_IMAGE_URL :=
  run_image_url ops _ d h

/-- Witness for C10 at a two-operation sequence. -/
theorem C10_image_url_constant_witness :
    run [Op.establish 0, Op.powerOff] (DemoDevice.init "demo") =
      .ok (DemoDevice.init "demo") ∧
    (DemoDevice.init "demo").attributes.MEDIA_IMAGE_URL =
      (DemoDevice.init "demo").attributes.MEDIA_IMAGE_URL :=
  ⟨rfl, C10_image_url_constant "demo" [Op.establish 0, Op.powerOff]
    (DemoDevice.init "demo") rfl⟩
